import Mathlib

/-!
Verification development for the ONVIF camera IP changer
(`skilleye_ip_changer.py`).

The Python source is shallowly embedded here: every network exchange is
represented by a `TransportResult` supplied through an environment record,
and the response-body text analysis (Python `in` substring tests and the
`re.findall` / `re.search` patterns of the source) is implemented by
executable scanners over `List Char`.  Python exceptions never escape the
functions modelled here (each has a blanket handler); the models therefore
return the value produced by the corresponding handler.  All recursion is
structural (lists, or an explicit fuel argument bounded by the input
length), so every definition evaluates by `decide`.
-/

/-- ASCII lower-casing of one character, as Python `str.lower` acts on the
ASCII range (the only range the matched literals use). -/
def lcChar (c : Char) : Char :=
  if 'A' ≤ c ∧ c ≤ 'Z' then Char.ofNat (c.toNat + 32) else c

/-- Lower-case a character list (model of Python `str.lower()`). -/
def lcStr (s : List Char) : List Char := s.map lcChar

/-- Substring test: `subList pat s` models Python `pat in s`. -/
def subList (pat : List Char) : List Char → Bool
  | [] => pat.isEmpty
  | c :: cs => pat.isPrefixOf (c :: cs) || subList pat cs

/-- String-level substring test: `containsStr s pat` models Python
`pat in s`. -/
def containsStr (s pat : String) : Bool := subList pat.data s.data

/-- Search for regex `<[^>]*LIT` (no closing requirement): the scanner state
records whether the current position is preceded by a `<` with no `>` in
between. -/
def tagPrefixHitAux (lit : List Char) : Bool → List Char → Bool
  | _, [] => false
  | inTag, c :: cs =>
    (inTag && lit.isPrefixOf (c :: cs)) ||
    tagPrefixHitAux lit (if c = '<' then true else if c = '>' then false else inTag) cs

/-- Whether `re.search` finds pattern `<[^>]*LIT` in `s`. -/
def tagPrefixHit (lit s : List Char) : Bool := tagPrefixHitAux lit false s

/-- Search for regex `<[^>]*LIT[^>]*>`: additionally some `>` must occur
after the literal. -/
def tagEnclosedHitAux (lit : List Char) : Bool → List Char → Bool
  | _, [] => false
  | inTag, c :: cs =>
    (inTag && lit.isPrefixOf (c :: cs) && ((c :: cs).drop lit.length).contains '>') ||
    tagEnclosedHitAux lit (if c = '<' then true else if c = '>' then false else inTag) cs

/-- Whether `re.search` finds pattern `<[^>]*LIT[^>]*>` in `s`. -/
def tagEnclosedHit (lit s : List Char) : Bool := tagEnclosedHitAux lit false s

/-- Search for regex `>[^<]*LIT[^<]*<`: the state records whether the
position is preceded by a `>` with no `<` in between, and some `<` must
occur after the literal. -/
def contentHitAux (lit : List Char) : Bool → List Char → Bool
  | _, [] => false
  | afterGt, c :: cs =>
    (afterGt && lit.isPrefixOf (c :: cs) && ((c :: cs).drop lit.length).contains '<') ||
    contentHitAux lit (if c = '>' then true else if c = '<' then false else afterGt) cs

/-- Whether `re.search` finds pattern `>[^<]*LIT[^<]*<` in `s`. -/
def contentHit (lit s : List Char) : Bool := contentHitAux lit false s

/-- `re.findall` for patterns of shape `PRE([cls]+)POST` where the
character class excludes the first character of `POST` (all such patterns
in the source satisfy this, so greedy capture never backtracks).  The fuel
argument keeps the recursion structural; callers pass the input length. -/
def findAllPCP (pre : List Char) (cls : Char → Bool) (post : List Char) :
    Nat → List Char → List (List Char)
  | 0, _ => []
  | _, [] => []
  | fuel + 1, c :: cs =>
    if pre.isPrefixOf (c :: cs) then
      let rest := (c :: cs).drop pre.length
      let cap := rest.takeWhile cls
      let rest2 := rest.drop cap.length
      if !cap.isEmpty && post.isPrefixOf rest2 then
        cap :: findAllPCP pre cls post fuel (rest2.drop post.length)
      else findAllPCP pre cls post fuel cs
    else findAllPCP pre cls post fuel cs

/-- Helper for the attribute pattern: inside a tag (after `<`), find the
first occurrence of `lit` before any `>` and return the remainder after it. -/
def findInTag (lit : List Char) : List Char → Option (List Char)
  | [] => none
  | c :: cs =>
    if lit.isPrefixOf (c :: cs) then some ((c :: cs).drop lit.length)
    else if c = '>' then none
    else findInTag lit cs

/-- `re.findall` for `<[^>]*token="([^"]+)"[^>]*>` (pattern 1 of
`get_current_network_config`).  On multiple `token="` occurrences inside one
tag the source regex would capture from the last; the configurations the
claims exercise have at most one, where the two agree. -/
def tokensAttrScan : Nat → List Char → List (List Char)
  | 0, _ => []
  | _, [] => []
  | fuel + 1, c :: cs =>
    if c = '<' then
      match findInTag ("token=" ++ "\"").data cs with
      | some rest =>
        let cap := rest.takeWhile (· ≠ '"')
        let rest2 := rest.drop cap.length
        if !cap.isEmpty && ("\"").data.isPrefixOf rest2 then
          let rest3 := (rest2.drop 1).dropWhile (· ≠ '>')
          if rest3.isEmpty then tokensAttrScan fuel cs
          else cap :: tokensAttrScan fuel (rest3.drop 1)
        else tokensAttrScan fuel cs
      | none => tokensAttrScan fuel cs
    else tokensAttrScan fuel cs

/-- `re.findall` for `<[^>]*W[^>]*>([^<]+)</[^>]*W[^>]*>` where `W` is the
class `[Tt]oken` or `[Nn]ame` (patterns 2 and 3 of
`get_current_network_config`); `w1`/`w2` are the two casings of the word. -/
def tokensElemScan (w1 w2 : List Char) : Nat → List Char → List (List Char)
  | 0, _ => []
  | _, [] => []
  | fuel + 1, c :: cs =>
    if c = '<' then
      let tag := cs.takeWhile (· ≠ '>')
      let rest := cs.drop tag.length
      if (subList w1 tag || subList w2 tag) && !rest.isEmpty then
        let rest1 := rest.drop 1
        let cap := rest1.takeWhile (· ≠ '<')
        let rest2 := rest1.drop cap.length
        match rest2 with
        | '<' :: '/' :: rest3 =>
          let tag2 := rest3.takeWhile (· ≠ '>')
          let rest4 := rest3.drop tag2.length
          if !cap.isEmpty && (subList w1 tag2 || subList w2 tag2) && !rest4.isEmpty then
            cap :: tokensElemScan w1 w2 fuel (rest4.drop 1)
          else tokensElemScan w1 w2 fuel cs
        | _ => tokensElemScan w1 w2 fuel cs
      else tokensElemScan w1 w2 fuel cs
    else tokensElemScan w1 w2 fuel cs

/-- Keep-first-occurrence de-duplication; models `list(set(...))` in the
source.  Python's set iteration order is unspecified, but every property
proved below depends only on membership and cardinality, which the order
does not affect. -/
def dedupKeepFirst (seen : List String) : List String → List String
  | [] => []
  | x :: xs =>
    if seen.contains x then dedupKeepFirst seen xs
    else x :: dedupKeepFirst (x :: seen) xs

/-- Portion of `s` after the first occurrence of `pat` (models
`s.split(pat)[1]` prefix extraction when `pat in s`). -/
def afterFirst (pat : List Char) : List Char → List Char
  | [] => []
  | c :: cs =>
    if pat.isPrefixOf (c :: cs) then (c :: cs).drop pat.length
    else afterFirst pat cs

/-- An HTTP exchange that produced a status code and a body. -/
structure HttpResponse where
  status : Nat
  body : String
deriving DecidableEq

/-- Result of one transport-level request: a response, or one of the
exception classes the source catches (`requests.exceptions.Timeout`,
`requests.exceptions.ConnectionError`, any other `Exception`). -/
inductive TransportResult where
  | ok (r : HttpResponse)
  | timeout
  | connError
  | otherError
deriving DecidableEq

/-- The `Camera` class of the source. -/
structure Camera where
  ip : String
  name : String
  model : String
  manufacturer : String
  reachable : Bool
deriving DecidableEq

/-- The `Camera.__init__` constructor: an empty name defaults to
`Camera-<ip>`, `reachable` starts `True`. -/
def mkCamera (ip name model manufacturer : String) : Camera :=
  ⟨ip, if name = "" then "Camera-" ++ ip else name, model, manufacturer, true⟩

/-- The dictionary produced by `get_current_network_config`. -/
structure NetworkConfig where
  addresses : List String
  interfaceTokens : List String
  dhcpEnabled : Bool
  prefixLengths : List String
  fullResponse : String
deriving DecidableEq

/-- The default dictionary `get_current_network_config` returns on any
transport failure or non-200 response. -/
def emptyNetworkConfig : NetworkConfig := ⟨[], [], false, [], ""⟩

/-- Body parsing of `get_current_network_config` (the 200 branch):
addresses via `<tt:Address>([0-9.]+)</tt:Address>`, interface tokens via
the three patterns united and de-duplicated, the DHCP flag via lower-cased
substring tests, prefix lengths via `<tt:PrefixLength>([0-9]+)</tt:PrefixLength>`. -/
def parseNetworkConfig (content : String) : NetworkConfig :=
  let cs := content.data
  let addresses :=
    (findAllPCP "<tt:Address>".data (fun c => c.isDigit || c = '.') "</tt:Address>".data
      cs.length cs).map (fun l => String.mk l)
  let t1 := tokensAttrScan cs.length cs
  let t2 := tokensElemScan "Token".data "token".data cs.length cs
  let t3 := tokensElemScan "Name".data "name".data cs.length cs
  let interfaceTokens := dedupKeepFirst [] ((t1 ++ t2 ++ t3).map (fun l => String.mk l))
  let lower := lcStr cs
  let dhcpEnabled := subList "dhcp>true".data lower || subList "dhcp=\"true\"".data lower
  let prefixLengths :=
    (findAllPCP "<tt:PrefixLength>".data (fun c => c.isDigit) "</tt:PrefixLength>".data
      cs.length cs).map (fun l => String.mk l)
  ⟨addresses, interfaceTokens, dhcpEnabled, prefixLengths, content⟩

/-- `get_current_network_config`: parse on HTTP 200, otherwise (non-200 or
any caught exception) the empty default dictionary. -/
def get_current_network_config (resp : TransportResult) : NetworkConfig :=
  match resp with
  | .ok r => if r.status = 200 then parseNetworkConfig r.body else emptyNetworkConfig
  | _ => emptyNetworkConfig

/-- Token extraction of `get_network_interfaces`: the
`<tt:token>([^<]+)</tt:token>` pattern, falling back to `token="([^"]+)"`
when the first finds nothing. -/
def parseInterfaceTokens (body : String) : List String :=
  let cs := body.data
  let tokens :=
    (findAllPCP "<tt:token>".data (· ≠ '<') "</tt:token>".data cs.length cs).map
      (fun l => String.mk l)
  if tokens.isEmpty then
    (findAllPCP ("token=" ++ "\"").data (· ≠ '"') "\"".data cs.length cs).map
      (fun l => String.mk l)
  else tokens

/-- `get_network_interfaces`: on HTTP 200 the parsed tokens (or the
sentinel `["eth0"]` when none parsed), on every other outcome the sentinel. -/
def get_network_interfaces (resp : TransportResult) : List String :=
  match resp with
  | .ok r =>
    if r.status = 200 then
      let interfaces := parseInterfaceTokens r.body
      if interfaces.isEmpty then ["eth0"] else interfaces
    else ["eth0"]
  | _ => ["eth0"]

/-- `get_camera_info`: on HTTP 200 build a `Camera` with manufacturer and
model extracted by the `split`-based parsing of the source; on every other
outcome `None`. -/
def get_camera_info (ip _username _password : String) (resp : TransportResult) :
    Option Camera :=
  match resp with
  | .ok r =>
    if r.status = 200 then
      let content := r.body
      let manufacturer :=
        if containsStr content "Manufacturer>" then
          String.mk ((afterFirst "Manufacturer>".data content.data).takeWhile (· ≠ '<'))
        else ""
      let model :=
        if containsStr content "Model>" then
          String.mk ((afterFirst "Model>".data content.data).takeWhile (· ≠ '<'))
        else ""
      some (mkCamera ip ("Camera-" ++ ip) model manufacturer)
    else none
  | _ => none

/-- `disable_dhcp_first`: success iff HTTP 200 and the response element
marker occurs in the body; any caught exception yields `False`.  No fault
marker is inspected. -/
def disable_dhcp_first (resp : TransportResult) : Bool :=
  match resp with
  | .ok r => decide (r.status = 200) && containsStr r.body "SetNetworkInterfacesResponse"
  | _ => false

/-- The success-marker test used verbatim by `set_dhcp_mode`,
`try_alternative_with_linklocal_preserved`, `try_alternative_ip_change` and
(as the `has_onvif_success` special case) `execute_ip_change`: both the
response element marker and the reboot-flag field occur in the raw body. -/
def hasOnvifSuccess (body : String) : Bool :=
  containsStr body "SetNetworkInterfacesResponse" && containsStr body "RebootNeeded"

/-- The fault pre-check of `execute_ip_change` (lines 1017): any of
`soap:fault`, `s:fault`, `fault` occurs in the lower-cased body. -/
def hasFaultMarker (body : String) : Bool :=
  let l := lcStr body.data
  subList "soap:fault".data l || subList "s:fault".data l || subList "fault".data l

/-- The `success_patterns` list of `execute_ip_change` (case-insensitive
`re.search` over the body). -/
def hasSuccessIndicators (body : String) : Bool :=
  let l := lcStr body.data
  tagPrefixHit "setnetworkinterfacesresponse".data l ||
  subList "<ns8:setnetworkinterfacesresponse".data l ||
  subList "<tds:setnetworkinterfacesresponse".data l ||
  subList "rebootneeded".data l

/-- The `failure_patterns` list of `execute_ip_change` (case-insensitive
`re.search` over the body). -/
def hasFailureIndicators (body : String) : Bool :=
  let l := lcStr body.data
  tagEnclosedHit "fault".data l ||
  contentHit "error".data l ||
  contentHit "unauthorized".data l ||
  contentHit "forbidden".data l ||
  contentHit "invalid".data l

/-- Observable effects of one `execute_ip_change` / `set_dhcp_mode` run, in
order: the 2-second pause after a DHCP-disable, the fixed settle sleep
before verification, the post-mutation facts fetch at the old address, the
invocation of `verify_ip_change`, the POST of an alternate-format mutation
request, and the `NameError` raised by the unbound `alt_token` variable
(line 1138 of the source) being caught by the blanket handler. -/
inductive Event where
  | dhcpSleep
  | settleSleep
  | postFetch
  | verifyCall
  | altRequest
  | nameErrorCaught
deriving DecidableEq

/-- The Python return value of `execute_ip_change`: `True`, `False`, or the
implicit `None` produced when control falls off the end of the function. -/
inductive PyRet where
  | pyTrue
  | pyFalse
  | pyNone
deriving DecidableEq

/-- Environment of one `execute_ip_change` run: the transport outcome of
each request issued, the reachability probe of the old address, and the
per-attempt outcomes of the verification polling loop. -/
structure Env where
  cfgResp1 : TransportResult
  ifResp : TransportResult
  dhcpResp : TransportResult
  primaryResp : TransportResult
  cfgResp2 : TransportResult
  stillAtOld : Bool
  verifyPort : Nat → Bool
  verifyInfo : Nat → TransportResult

/-- Result of one `execute_ip_change` run: return value, effect trace, and
the registry (`self.cameras`) afterwards. -/
structure EngineResult where
  ret : PyRet
  trace : List Event
  cameras : List Camera
deriving DecidableEq

/-- The polling loop of `verify_ip_change`: at attempt `i` the camera is
confirmed when the management port answers and the identity query returns a
camera; otherwise the loop continues (exceptions inside an attempt are
caught and the loop continues). -/
def verifyLoop (att : Nat → Bool) : Nat → Nat → Bool
  | _, 0 => false
  | i, n + 1 => if att i then true else verifyLoop att (i + 1) n

/-- `verify_ip_change(new_ip, timeout)`: up to `timeout` attempts, each
checking the management port and then the identity query at the new
address. -/
def verify_ip_change (env : Env) (newIp username password : String) (timeout : Nat) : Bool :=
  verifyLoop
    (fun i => env.verifyPort i && (get_camera_info newIp username password (env.verifyInfo i)).isSome)
    0 timeout

/-- The in-place registry update on confirmed success (lines 1110-1113 of
the source): the first camera whose `ip` equals the old address gets its
`ip` field set to the new address; the loop then breaks. -/
def updateFirstIp (oldIp newIp : String) : List Camera → List Camera
  | [] => []
  | c :: cs =>
    if c.ip = oldIp then { c with ip := newIp } :: cs
    else c :: updateFirstIp oldIp newIp cs

/-- Interface identifier candidates gathered by `execute_ip_change`: the
union of the dedicated query and the tokens from the config query, with the
`eth0` fallback when the union is empty. -/
def engineAllTokens (env : Env) : List String :=
  let a0 := dedupKeepFirst []
    (get_network_interfaces env.ifResp ++ (get_current_network_config env.cfgResp1).interfaceTokens)
  if a0.isEmpty then ["eth0"] else a0

/-- The HTTP-200 branch of `execute_ip_change` (lines 1012-1176): fault
pre-check, failure/success indicator analysis, settle sleep, post-mutation
facts fetch, old-address probe, verification, and the fallback branch.  In
the fallback branch the source evaluates the unbound variable `alt_token`
(line 1138), so a `NameError` is raised before the alternate request is
posted and the blanket `except Exception` handler returns `False`.  When
`config_changed or not still_at_old` holds but verification fails, control
falls off the end of the function, returning Python `None`. -/
def engineOn200 (env : Env) (oldIp newIp username password : String) (cams : List Camera)
    (allTokens : List String) (pre : List Event) (body : String) : EngineResult :=
  if hasFaultMarker body then ⟨.pyFalse, pre, cams⟩
  else if hasFailureIndicators body && !hasOnvifSuccess body then ⟨.pyFalse, pre, cams⟩
  else if !hasSuccessIndicators body && !hasOnvifSuccess body then ⟨.pyFalse, pre, cams⟩
  else
    let cfg2 := get_current_network_config env.cfgResp2
    let configChanged := !cfg2.addresses.isEmpty && cfg2.addresses.contains newIp
    if configChanged || !env.stillAtOld then
      if verify_ip_change env newIp username password 10 then
        ⟨.pyTrue, pre ++ [.settleSleep, .postFetch, .verifyCall], updateFirstIp oldIp newIp cams⟩
      else
        ⟨.pyNone, pre ++ [.settleSleep, .postFetch, .verifyCall], cams⟩
    else
      if env.stillAtOld && decide (allTokens.length > 1) then
        ⟨.pyFalse, pre ++ [.settleSleep, .postFetch, .nameErrorCaught], cams⟩
      else
        ⟨.pyFalse, pre ++ [.settleSleep, .postFetch], cams⟩

/-- `execute_ip_change`: gather facts and interface candidates, optionally
disable DHCP first (with its 2-second pause on reported success), post the
primary interface-replacement request, and dispatch on its outcome.  The
three `except` clauses of the source all return `False`. -/
def execute_ip_change (env : Env) (oldIp newIp username password : String)
    (cams : List Camera) : EngineResult :=
  let cfg1 := get_current_network_config env.cfgResp1
  let pre : List Event :=
    if cfg1.dhcpEnabled && disable_dhcp_first env.dhcpResp then [Event.dhcpSleep] else []
  match env.primaryResp with
  | .ok r =>
    if r.status = 200 then
      engineOn200 env oldIp newIp username password cams (engineAllTokens env) pre r.body
    else if r.status = 401 then ⟨.pyFalse, pre, cams⟩
    else if r.status = 404 then ⟨.pyFalse, pre, cams⟩
    else ⟨.pyFalse, pre, cams⟩
  | .timeout => ⟨.pyFalse, pre, cams⟩
  | .connError => ⟨.pyFalse, pre, cams⟩
  | .otherError => ⟨.pyFalse, pre, cams⟩

/-- The response handling of `set_dhcp_mode` (lines 194-250): on HTTP 200
the body is classified successful iff both success markers occur (no fault
marker is inspected); on success the function sleeps, re-fetches the
configuration and reports whether the DHCP flag now matches the target;
otherwise, and on non-200 or any caught exception, it returns `False`. -/
def set_dhcp_mode (enableDhcp : Bool) (resp verifyResp : TransportResult) :
    Bool × List Event :=
  match resp with
  | .ok r =>
    if r.status = 200 then
      if containsStr r.body "SetNetworkInterfacesResponse" && containsStr r.body "RebootNeeded" then
        let newCfg := get_current_network_config verifyResp
        (newCfg.dhcpEnabled == enableDhcp, [Event.settleSleep, Event.postFetch])
      else (false, [])
    else (false, [])
  | _ => (false, [])

/-- Decimal digit to character. -/
def digitChar : Nat → Char
  | 0 => '0'
  | 1 => '1'
  | 2 => '2'
  | 3 => '3'
  | 4 => '4'
  | 5 => '5'
  | 6 => '6'
  | 7 => '7'
  | 8 => '8'
  | _ => '9'

/-- Little-endian decimal digits of `n`, driven by a fuel argument (any
fuel at least `n` is enough). -/
def digitsAux : Nat → Nat → List Char
  | 0, _ => []
  | _ + 1, 0 => []
  | fuel + 1, n + 1 => digitChar ((n + 1) % 10) :: digitsAux fuel ((n + 1) / 10)

/-- Decimal rendering of a natural number as a character list. -/
def natChars (n : Nat) : List Char :=
  if n = 0 then ['0'] else (digitsAux n n).reverse

/-- Dotted-quad rendering of a 32-bit address, as Python
`str(IPv4Address(n))`. -/
def ipStr (n : Nat) : String :=
  String.mk (natChars (n / 16777216 % 256) ++ '.' ::
    (natChars (n / 65536 % 256) ++ '.' ::
      (natChars (n / 256 % 256) ++ '.' :: natChars (n % 256))))

/-- Numeric value of a decimal digit character. -/
def digitVal (c : Char) : Nat := c.toNat - 48

/-- Value of a little-endian digit list. -/
def leVal : List Char → Nat
  | [] => 0
  | c :: cs => digitVal c + 10 * leVal cs

/-- Value of a big-endian digit list. -/
def natVal (cs : List Char) : Nat := leVal cs.reverse

/-- Split a character list at every dot. -/
def splitDot : List Char → List (List Char)
  | [] => [[]]
  | c :: cs =>
    if c = '.' then [] :: splitDot cs
    else
      match splitDot cs with
      | [] => [[c]]
      | g :: gs => (c :: g) :: gs

/-- Parse a dotted-quad string back to its 32-bit value (left inverse of
`ipStr`, used to prove `ipStr` injective). -/
def ipDecode (s : String) : Nat :=
  match splitDot s.data with
  | [a, b, c, d] => natVal a * 16777216 + natVal b * 65536 + natVal c * 256 + natVal d
  | _ => 0

/-- The network address of `IPv4Network(addr/plen, strict=False)`: host
bits cleared. -/
def networkAddress (addr plen : Nat) : Nat :=
  addr / 2 ^ (32 - plen) * 2 ^ (32 - plen)

/-- The broadcast address of the block: host bits set. -/
def broadcastAddress (addr plen : Nat) : Nat :=
  networkAddress addr plen + 2 ^ (32 - plen) - 1

/-- The address sequence `network_obj.hosts()` iterates over: for blocks up
to /30 all addresses strictly between network and broadcast; Python yields
both addresses of a /31 and the single address of a /32. -/
def hostsList (addr plen : Nat) : List Nat :=
  if plen ≤ 30 then
    (List.range (2 ^ (32 - plen) - 2)).map (fun i => networkAddress addr plen + 1 + i)
  else if plen = 31 then [networkAddress addr plen, networkAddress addr plen + 1]
  else [networkAddress addr plen]

/-- `check_ip_ports` (inner function of `scan_network_for_cameras`): the
network and broadcast addresses are skipped; any other address is a
candidate iff some configured port accepts a TCP connection. -/
def check_ip_ports (net bc : Nat) (ports : List Nat) (portOpen : Nat → Nat → Bool)
    (ip : Nat) : Option Nat :=
  if ip = net || ip = bc then none
  else if ports.any (fun port => portOpen ip port) then some ip else none

/-- Phase 2 of the scan, for one candidate address: identity query without
credentials, then with the session credentials when a username is set, and
a minimal `Camera` entry when both fail. -/
def scanProbeCamera (username password : String) (unauthInfo authInfo : TransportResult)
    (ip : Nat) : Camera :=
  match get_camera_info (ipStr ip) "" "" unauthInfo with
  | some cam => cam
  | none =>
    if username ≠ "" then
      match get_camera_info (ipStr ip) username password authInfo with
      | some cam => cam
      | none => mkCamera (ipStr ip) "" "" ""
    else mkCamera (ipStr ip) "" "" ""

/-- `scan_network_for_cameras`: enumerate the host addresses of the block,
keep those with an open configured port (phase 1; the bounded thread pool
only affects completion order, not membership), then build one `Camera` per
candidate (phase 2). -/
def scan_network_for_cameras (addr plen : Nat) (ports : List Nat)
    (portOpen : Nat → Nat → Bool) (unauthInfo authInfo : Nat → TransportResult)
    (username password : String) : List Camera :=
  let net := networkAddress addr plen
  let bc := broadcastAddress addr plen
  let openIps := (hostsList addr plen).filterMap (check_ip_ports net bc ports portOpen)
  openIps.map (fun ip => scanProbeCamera username password (unauthInfo ip) (authInfo ip) ip)

/-- A mutation response body carrying a SOAP fault marker together with
both success-marker substrings. -/
def faultBody : String := "<s:Fault/>SetNetworkInterfacesResponse RebootNeeded"

/-- A clean successful mutation response body: both success markers, no
fault marker, no failure-indicator pattern. -/
def okBody : String :=
  "<tds:SetNetworkInterfacesResponse><tt:RebootNeeded>false</tt:RebootNeeded></tds:SetNetworkInterfacesResponse>"

/-- Environment of the spec scenario behind C2: primary mutation answers
200 with both markers, the post-settle facts at the old address list the
new address `10.0.0.9`, and the new address becomes reachable on attempt 3
of the polling window. -/
def envC2 : Env where
  cfgResp1 := .ok ⟨200, "<tt:Address>10.0.0.5</tt:Address>"⟩
  ifResp := .ok ⟨200, "<tt:token>eth0</tt:token>"⟩
  dhcpResp := .timeout
  primaryResp := .ok ⟨200, okBody⟩
  cfgResp2 := .ok ⟨200, "<tt:Address>10.0.0.9</tt:Address>"⟩
  stillAtOld := true
  verifyPort := fun i => decide (2 ≤ i)
  verifyInfo := fun i =>
    if 2 ≤ i then .ok ⟨200, "<Manufacturer>Acme</Manufacturer>"⟩ else .connError

/-- A registry with one camera before the target, the target at the old
address, and a later duplicate of the old address. -/
def camsC2 : List Camera :=
  [mkCamera "10.0.0.7" "Cam7" "M7" "V7", mkCamera "10.0.0.5" "Cam5" "M5" "V5",
   mkCamera "10.0.0.5" "CamDup" "" ""]

/-- Environment whose primary response body carries a fault marker (and
both success markers); used against the fault-marker claims. -/
def envC1 : Env where
  cfgResp1 := .timeout
  ifResp := .timeout
  dhcpResp := .timeout
  primaryResp := .ok ⟨200, faultBody⟩
  cfgResp2 := .timeout
  stillAtOld := true
  verifyPort := fun _ => false
  verifyInfo := fun _ => .timeout

/-- Environment whose primary response is 200 with body `RebootNeeded`
only: no response-element marker, no fault, no failure indicator. -/
def envC3 : Env where
  cfgResp1 := .timeout
  ifResp := .timeout
  dhcpResp := .timeout
  primaryResp := .ok ⟨200, "RebootNeeded"⟩
  cfgResp2 := .timeout
  stillAtOld := true
  verifyPort := fun _ => false
  verifyInfo := fun _ => .timeout

/-- Environment for the fallback branch: two interface token candidates,
a recognized-successful primary response, post-settle facts that still show
only the old address, and the old address still reachable. -/
def envC4 : Env where
  cfgResp1 := .ok ⟨200, ""⟩
  ifResp := .ok ⟨200, "<tt:token>eth0</tt:token><tt:token>eth1</tt:token>"⟩
  dhcpResp := .timeout
  primaryResp := .ok ⟨200, okBody⟩
  cfgResp2 := .ok ⟨200, "<tt:Address>10.0.0.5</tt:Address>"⟩
  stillAtOld := true
  verifyPort := fun _ => false
  verifyInfo := fun _ => .timeout

/-- Environment whose primary response is HTTP 401. -/
def envC5 : Env where
  cfgResp1 := .timeout
  ifResp := .timeout
  dhcpResp := .timeout
  primaryResp := .ok ⟨401, "Unauthorized"⟩
  cfgResp2 := .timeout
  stillAtOld := true
  verifyPort := fun _ => false
  verifyInfo := fun _ => .timeout

/-- Environment in which the mutation is recognized successful and the
post-settle facts list the new address, but the new address never becomes
reachable: the source then falls off the end of `execute_ip_change`. -/
def envC6 : Env where
  cfgResp1 := .timeout
  ifResp := .timeout
  dhcpResp := .timeout
  primaryResp := .ok ⟨200, okBody⟩
  cfgResp2 := .ok ⟨200, "<tt:Address>10.0.0.9</tt:Address>"⟩
  stillAtOld := true
  verifyPort := fun _ => false
  verifyInfo := fun _ => .timeout

/-- Boolean witness that a transport outcome is a failure in the sense of
the Inspector contract: an exception, or a response with a non-200 status. -/
def respFails (resp : TransportResult) : Bool :=
  match resp with
  | .ok r => decide (r.status ≠ 200)
  | _ => true

lemma digitVal_digitChar (d : Nat) (h : d < 10) : digitVal (digitChar d) = d := by
  interval_cases d <;> decide

lemma digitChar_ne_dot (d : Nat) : digitChar d ≠ '.' := by
  rcases d with _ | _ | _ | _ | _ | _ | _ | _ | _ | _ | d
  all_goals first
  | decide
  | exact (by decide : ('9' : Char) ≠ '.')

lemma leVal_digitsAux (fuel : Nat) : ∀ n, n ≤ fuel → leVal (digitsAux fuel n) = n := by
  induction fuel with
  | zero =>
    intro n hn
    interval_cases n
    simp [digitsAux, leVal]
  | succ fuel ih =>
    intro n hn
    match n with
    | 0 => simp [digitsAux, leVal]
    | n + 1 =>
      have hdiv : (n + 1) / 10 ≤ fuel := by
        have := Nat.div_lt_self (Nat.succ_pos n) (by norm_num : 1 < 10)
        omega
      have hmod : (n + 1) % 10 < 10 := Nat.mod_lt _ (by norm_num)
      simp only [digitsAux, leVal, ih _ hdiv, digitVal_digitChar _ hmod]
      exact Nat.mod_add_div (n + 1) 10

lemma natVal_natChars (n : Nat) : natVal (natChars n) = n := by
  unfold natChars
  by_cases h : n = 0
  · subst h; decide
  · simp only [h, if_false, natVal, List.reverse_reverse]
    exact leVal_digitsAux n n le_rfl

lemma digitsAux_ne_dot (fuel : Nat) : ∀ n c, c ∈ digitsAux fuel n → c ≠ '.' := by
  induction fuel with
  | zero => intro n c hc; simp [digitsAux] at hc
  | succ fuel ih =>
    intro n c hc
    match n with
    | 0 => simp [digitsAux] at hc
    | n + 1 =>
      simp only [digitsAux, List.mem_cons] at hc
      rcases hc with hc | hc
      · exact hc ▸ digitChar_ne_dot _
      · exact ih _ _ hc

lemma natChars_ne_dot (n : Nat) : ∀ c ∈ natChars n, c ≠ '.' := by
  intro c hc
  unfold natChars at hc
  by_cases h : n = 0
  · simp [h] at hc
    exact hc ▸ (by decide : ('0' : Char) ≠ '.')
  · simp only [h, if_false, List.mem_reverse] at hc
    exact digitsAux_ne_dot _ _ _ hc

lemma splitDot_noDot (xs : List Char) (h : ∀ c ∈ xs, c ≠ '.') : splitDot xs = [xs] := by
  induction xs with
  | nil => rfl
  | cons c cs ih =>
    have hc : c ≠ '.' := h c (List.mem_cons_self _ _)
    have hcs : ∀ x ∈ cs, x ≠ '.' := fun x hx => h x (List.mem_cons_of_mem _ hx)
    simp only [splitDot, if_neg hc, ih hcs]

lemma splitDot_append (xs ys : List Char) (h : ∀ c ∈ xs, c ≠ '.') :
    splitDot (xs ++ '.' :: ys) = xs :: splitDot ys := by
  induction xs with
  | nil => simp [splitDot]
  | cons c cs ih =>
    have hc : c ≠ '.' := h c (List.mem_cons_self _ _)
    have hcs : ∀ x ∈ cs, x ≠ '.' := fun x hx => h x (List.mem_cons_of_mem _ hx)
    simp only [List.cons_append, splitDot, if_neg hc, List.append_eq, ih hcs]

lemma ipDecode_ipStr (n : Nat) (h : n < 4294967296) : ipDecode (ipStr n) = n := by
  unfold ipStr ipDecode
  have hdata : (String.mk (natChars (n / 16777216 % 256) ++ '.' ::
      (natChars (n / 65536 % 256) ++ '.' ::
        (natChars (n / 256 % 256) ++ '.' :: natChars (n % 256))))).data =
      natChars (n / 16777216 % 256) ++ '.' ::
      (natChars (n / 65536 % 256) ++ '.' ::
        (natChars (n / 256 % 256) ++ '.' :: natChars (n % 256))) := rfl
  rw [hdata,
    splitDot_append _ _ (natChars_ne_dot _),
    splitDot_append _ _ (natChars_ne_dot _),
    splitDot_append _ _ (natChars_ne_dot _),
    splitDot_noDot _ (natChars_ne_dot _)]
  simp only [natVal_natChars]
  omega

lemma ipStr_inj (m n : Nat) (hm : m < 4294967296) (hn : n < 4294967296)
    (h : ipStr m = ipStr n) : m = n := by
  have := congrArg ipDecode h
  rwa [ipDecode_ipStr m hm, ipDecode_ipStr n hn] at this

lemma networkAddress_le (addr plen : Nat) : networkAddress addr plen ≤ addr :=
  Nat.div_mul_le_self _ _

lemma broadcastAddress_lt (addr plen : Nat) (ha : addr < 4294967296) (hp : plen ≤ 32) :
    broadcastAddress addr plen < 4294967296 := by
  unfold broadcastAddress networkAddress
  have hKpos : 0 < 2 ^ (32 - plen) := Nat.pos_pow_of_pos _ (by norm_num)
  have hsplit : 2 ^ plen * 2 ^ (32 - plen) = 4294967296 := by
    rw [← pow_add]
    have : plen + (32 - plen) = 32 := by omega
    rw [this]
    norm_num
  have hq : addr / 2 ^ (32 - plen) < 2 ^ plen := by
    rw [Nat.div_lt_iff_lt_mul hKpos, hsplit]
    exact ha
  have h2 : (addr / 2 ^ (32 - plen) + 1) * 2 ^ (32 - plen) ≤ 2 ^ plen * 2 ^ (32 - plen) :=
    Nat.mul_le_mul_right _ (Nat.succ_le_of_lt hq)
  rw [add_mul, one_mul, hsplit] at h2
  have hpos : 0 < addr / 2 ^ (32 - plen) * 2 ^ (32 - plen) + 2 ^ (32 - plen) :=
    Nat.lt_of_lt_of_le hKpos (Nat.le_add_left _ _)
  exact Nat.lt_of_lt_of_le (Nat.sub_lt hpos Nat.one_pos) h2

lemma hostsList_lt (addr plen : Nat) (ha : addr < 4294967296) (hp : plen ≤ 32) :
    ∀ ip ∈ hostsList addr plen, ip < 4294967296 := by
  intro ip hip
  have hbc := broadcastAddress_lt addr plen ha hp
  have hnet : networkAddress addr plen ≤ addr := networkAddress_le addr plen
  unfold broadcastAddress at hbc
  unfold hostsList at hip
  split_ifs at hip with h30 h31
  · simp only [List.mem_map, List.mem_range] at hip
    obtain ⟨i, hi, rfl⟩ := hip
    have hKpos : 0 < 2 ^ (32 - plen) := Nat.pos_pow_of_pos _ (by norm_num)
    omega
  · subst h31
    have hK : (2 : Nat) ^ (32 - 31) = 2 := by norm_num
    simp only [List.mem_cons, List.not_mem_nil, or_false] at hip
    rcases hip with h | h <;> omega
  · simp only [List.mem_singleton] at hip
    omega

lemma check_ip_ports_eq_some (net bc : Nat) (ports : List Nat)
    (portOpen : Nat → Nat → Bool) (ip ip' : Nat)
    (h : check_ip_ports net bc ports portOpen ip = some ip') :
    ip' = ip ∧ ip ≠ net ∧ ip ≠ bc := by
  unfold check_ip_ports at h
  by_cases h1 : (decide (ip = net) || decide (ip = bc)) = true
  · rw [if_pos h1] at h
    exact absurd h (by simp)
  · rw [if_neg h1] at h
    simp only [Bool.or_eq_true, decide_eq_true_eq, not_or] at h1
    by_cases h2 : (ports.any fun port => portOpen ip port) = true
    · rw [if_pos h2] at h
      injection h with h3
      exact ⟨h3.symm, h1.1, h1.2⟩
    · rw [if_neg h2] at h
      exact absurd h (by simp)

lemma get_camera_info_ip (ip u p : String) (resp : TransportResult) (cam : Camera)
    (h : get_camera_info ip u p resp = some cam) : cam.ip = ip := by
  cases resp with
  | ok r =>
    simp only [get_camera_info] at h
    split_ifs at h
    all_goals injection h with h3
    all_goals subst h3
    all_goals rfl
  | timeout => simp [get_camera_info] at h
  | connError => simp [get_camera_info] at h
  | otherError => simp [get_camera_info] at h

lemma scanProbeCamera_ip (u p : String) (r1 r2 : TransportResult) (ip : Nat) :
    (scanProbeCamera u p r1 r2 ip).ip = ipStr ip := by
  unfold scanProbeCamera
  cases h1 : get_camera_info (ipStr ip) "" "" r1 with
  | some cam => exact get_camera_info_ip _ _ _ _ _ h1
  | none =>
    split_ifs with hu
    · cases h2 : get_camera_info (ipStr ip) u p r2 with
      | some cam => exact get_camera_info_ip _ _ _ _ _ h2
      | none => rfl
    · rfl

/-- C7: for every valid CIDR range, the Discovery scan never returns a
Device whose address equals the network address or the broadcast address of
that range; only usable host addresses can appear in the result. -/
theorem c7_scan_excludes_network_and_broadcast (addr plen : Nat) (ports : List Nat)
    (portOpen : Nat → Nat → Bool) (unauthInfo authInfo : Nat → TransportResult)
    (username password : String) (ha : addr < 4294967296) (hp : plen ≤ 32) :
    ∀ cam ∈ scan_network_for_cameras addr plen ports portOpen unauthInfo authInfo
        username password,
      cam.ip ≠ ipStr (networkAddress addr plen) ∧
      cam.ip ≠ ipStr (broadcastAddress addr plen) := by
  intro cam hcam
  unfold scan_network_for_cameras at hcam
  simp only [List.mem_map, List.mem_filterMap] at hcam
  obtain ⟨ip, ⟨a, hamem, hsome⟩, rfl⟩ := hcam
  obtain ⟨heq, hnet, hbc⟩ := check_ip_ports_eq_some _ _ _ _ _ _ hsome
  have hlt : ip < 4294967296 := by
    rw [heq]
    exact hostsList_lt addr plen ha hp a hamem
  have hnetlt : networkAddress addr plen < 4294967296 :=
    Nat.lt_of_le_of_lt (networkAddress_le addr plen) ha
  have hbclt : broadcastAddress addr plen < 4294967296 := broadcastAddress_lt addr plen ha hp
  rw [scanProbeCamera_ip]
  constructor
  · intro hcontra
    exact hnet (heq.symm.trans (ipStr_inj _ _ hlt hnetlt hcontra))
  · intro hcontra
    exact hbc (heq.symm.trans (ipStr_inj _ _ hlt hbclt hcontra))

lemma mem_pre_dhcp (e : Event) (b : Bool)
    (h : e ∈ (if b then [Event.dhcpSleep] else [])) : e = Event.dhcpSleep := by
  cases b <;> simp_all

lemma updateFirstIp_no_match (o n : String) (l : List Camera) (h : ∀ c ∈ l, c.ip ≠ o) :
    updateFirstIp o n l = l := by
  induction l with
  | nil => rfl
  | cons c cs ih =>
    unfold updateFirstIp
    rw [if_neg (h c (List.mem_cons_self _ _)), ih (fun d hd => h d (List.mem_cons_of_mem _ hd))]

lemma updateFirstIp_first_match (o n : String) (l1 : List Camera) (c : Camera)
    (l2 : List Camera) (h1 : ∀ d ∈ l1, d.ip ≠ o) (hc : c.ip = o) :
    updateFirstIp o n (l1 ++ c :: l2) = l1 ++ { c with ip := n } :: l2 := by
  induction l1 with
  | nil =>
    simp only [List.nil_append]
    unfold updateFirstIp
    rw [if_pos hc]
  | cons d ds ih =>
    simp only [List.cons_append]
    unfold updateFirstIp
    rw [if_neg (h1 d (List.mem_cons_self _ _)), ih (fun e he => h1 e (List.mem_cons_of_mem _ he))]

lemma verifyLoop_iff (att : Nat → Bool) :
    ∀ (n i : Nat), verifyLoop att i n = true ↔ ∃ j, j < n ∧ att (i + j) = true := by
  intro n
  induction n with
  | zero =>
    intro i
    simp [verifyLoop]
  | succ n ih =>
    intro i
    constructor
    · intro hv
      simp only [verifyLoop] at hv
      by_cases h : att i = true
      · exact ⟨0, Nat.succ_pos n, by simpa using h⟩
      · rw [if_neg h] at hv
        obtain ⟨j, hj, hatt⟩ := (ih (i + 1)).mp hv
        refine ⟨j + 1, by omega, ?_⟩
        have : i + (j + 1) = i + 1 + j := by omega
        rwa [this]
    · rintro ⟨j, hj, hatt⟩
      simp only [verifyLoop]
      by_cases h : att i = true
      · rw [if_pos h]
      · rw [if_neg h]
        apply (ih (i + 1)).mpr
        match j with
        | 0 => exact absurd (by simpa using hatt) h
        | j + 1 =>
          refine ⟨j, by omega, ?_⟩
          have : i + 1 + j = i + (j + 1) := by omega
          rwa [this]

/-- C5: a primary mutation response with HTTP status 401 terminates the
engine immediately with a rejection outcome: no settle delay, no
verification, and no alternate request shape are attempted. -/
theorem c5_http401_stops_immediately (env : Env) (oldIp newIp username password : String)
    (cams : List Camera) (r : HttpResponse)
    (hresp : env.primaryResp = .ok r) (hst : r.status = 401) :
    (execute_ip_change env oldIp newIp username password cams).ret = .pyFalse ∧
    Event.settleSleep ∉ (execute_ip_change env oldIp newIp username password cams).trace ∧
    Event.verifyCall ∉ (execute_ip_change env oldIp newIp username password cams).trace ∧
    Event.altRequest ∉ (execute_ip_change env oldIp newIp username password cams).trace := by
  unfold execute_ip_change
  rw [hresp]
  simp only [hst]
  norm_num
  refine ⟨?_, ?_, ?_⟩ <;> (intro _ _; decide)

/-- Witness for C5 at the concrete 401 environment. -/
theorem c5_http401_witness :
    envC5.primaryResp = TransportResult.ok ⟨401, "Unauthorized"⟩ ∧
    ((execute_ip_change envC5 "10.0.0.5" "10.0.0.9" "admin" "pw" camsC2).ret = .pyFalse ∧
     Event.settleSleep ∉ (execute_ip_change envC5 "10.0.0.5" "10.0.0.9" "admin" "pw" camsC2).trace ∧
     Event.verifyCall ∉ (execute_ip_change envC5 "10.0.0.5" "10.0.0.9" "admin" "pw" camsC2).trace ∧
     Event.altRequest ∉ (execute_ip_change envC5 "10.0.0.5" "10.0.0.9" "admin" "pw" camsC2).trace) :=
  ⟨rfl, c5_http401_stops_immediately envC5 "10.0.0.5" "10.0.0.9" "admin" "pw" camsC2 _ rfl rfl⟩

/-- C1 (amended): for the primary interface-replacement request, a fault
marker in a 200 response body always classifies the operation as rejected,
regardless of co-occurring success marker text, and neither the settle
delay, nor the post-mutation facts fetch, nor verification occur. -/
theorem c1_primary_fault_rejected (env : Env) (oldIp newIp username password : String)
    (cams : List Camera) (r : HttpResponse)
    (hresp : env.primaryResp = .ok r) (hst : r.status = 200)
    (hf : hasFaultMarker r.body = true) :
    (execute_ip_change env oldIp newIp username password cams).ret = .pyFalse ∧
    Event.settleSleep ∉ (execute_ip_change env oldIp newIp username password cams).trace ∧
    Event.postFetch ∉ (execute_ip_change env oldIp newIp username password cams).trace ∧
    Event.verifyCall ∉ (execute_ip_change env oldIp newIp username password cams).trace := by
  unfold execute_ip_change engineOn200
  rw [hresp]
  simp only [hst, hf]
  norm_num
  refine ⟨?_, ?_, ?_⟩ <;> (intro _ _; decide)

/-- Witness for the amended C1 at a concrete faulty 200 response. -/
theorem c1_primary_fault_witness :
    hasFaultMarker faultBody = true ∧
    ((execute_ip_change envC1 "10.0.0.5" "10.0.0.9" "admin" "pw" camsC2).ret = .pyFalse ∧
     Event.settleSleep ∉ (execute_ip_change envC1 "10.0.0.5" "10.0.0.9" "admin" "pw" camsC2).trace ∧
     Event.postFetch ∉ (execute_ip_change envC1 "10.0.0.5" "10.0.0.9" "admin" "pw" camsC2).trace ∧
     Event.verifyCall ∉ (execute_ip_change envC1 "10.0.0.5" "10.0.0.9" "admin" "pw" camsC2).trace) :=
  ⟨by decide,
   c1_primary_fault_rejected envC1 "10.0.0.5" "10.0.0.9" "admin" "pw" camsC2 _ rfl rfl
     (by decide)⟩

/-- Counterexample to C1 as stated: the DHCP-mode request of
`set_dhcp_mode` and the DHCP-only-disable request of `disable_dhcp_first`
never inspect fault markers; a body carrying a fault marker together with
the success markers is classified as success, the settle delay is incurred
and the verification fetch is performed. -/
theorem c1_counterexample_dhcp_requests_ignore_fault :
    hasFaultMarker faultBody = true ∧
    (set_dhcp_mode false (TransportResult.ok ⟨200, faultBody⟩) TransportResult.timeout).1 = true ∧
    Event.settleSleep ∈
      (set_dhcp_mode false (TransportResult.ok ⟨200, faultBody⟩) TransportResult.timeout).2 ∧
    Event.postFetch ∈
      (set_dhcp_mode false (TransportResult.ok ⟨200, faultBody⟩) TransportResult.timeout).2 ∧
    disable_dhcp_first (TransportResult.ok ⟨200, faultBody⟩) = true := by
  decide

/-- C3 (amended): with a 200 primary response free of fault markers, the
engine proceeds to the settle delay iff either both required markers occur,
or at least one success pattern matches while no failure pattern does; in
the remaining cases it classifies the response as rejected. -/
theorem c3_success_marker_gate (env : Env) (oldIp newIp username password : String)
    (cams : List Camera) (r : HttpResponse)
    (hresp : env.primaryResp = .ok r) (hst : r.status = 200)
    (hnf : hasFaultMarker r.body = false) :
    (Event.settleSleep ∈ (execute_ip_change env oldIp newIp username password cams).trace ↔
      (hasOnvifSuccess r.body = true ∨
       (hasSuccessIndicators r.body = true ∧ hasFailureIndicators r.body = false))) ∧
    ((hasOnvifSuccess r.body = false ∧
      (hasSuccessIndicators r.body = false ∨ hasFailureIndicators r.body = true)) →
      (execute_ip_change env oldIp newIp username password cams).ret = .pyFalse) := by
  unfold execute_ip_change engineOn200
  rw [hresp]
  simp only [hst, hnf]
  cases ho : hasOnvifSuccess r.body <;>
    cases hs : hasSuccessIndicators r.body <;>
      cases hfa : hasFailureIndicators r.body <;>
        norm_num <;>
          first
          | (intro _ _; decide)
          | (split_ifs <;> simp [List.mem_append])

/-- Witness for the amended C3 at the concrete `RebootNeeded`-only body. -/
theorem c3_success_marker_gate_witness :
    envC3.primaryResp = TransportResult.ok ⟨200, "RebootNeeded"⟩ ∧
    ((Event.settleSleep ∈
        (execute_ip_change envC3 "10.0.0.5" "10.0.0.9" "admin" "pw" camsC2).trace ↔
      (hasOnvifSuccess "RebootNeeded" = true ∨
       (hasSuccessIndicators "RebootNeeded" = true ∧
        hasFailureIndicators "RebootNeeded" = false))) ∧
     ((hasOnvifSuccess "RebootNeeded" = false ∧
       (hasSuccessIndicators "RebootNeeded" = false ∨
        hasFailureIndicators "RebootNeeded" = true)) →
      (execute_ip_change envC3 "10.0.0.5" "10.0.0.9" "admin" "pw" camsC2).ret = .pyFalse)) :=
  ⟨rfl, c3_success_marker_gate envC3 "10.0.0.5" "10.0.0.9" "admin" "pw" camsC2 _ rfl rfl
    (by decide)⟩

/-- Counterexample to C3 as stated: a 200 body consisting of the single
word `RebootNeeded` lacks the SetNetworkInterfaces response-element marker,
yet the engine proceeds to the settle delay and the post-mutation fetch
instead of stopping. -/
theorem c3_counterexample_reboot_only_proceeds :
    hasFaultMarker "RebootNeeded" = false ∧
    hasOnvifSuccess "RebootNeeded" = false ∧
    Event.settleSleep ∈
      (execute_ip_change envC3 "10.0.0.5" "10.0.0.9" "admin" "pw" camsC2).trace ∧
    Event.postFetch ∈
      (execute_ip_change envC3 "10.0.0.5" "10.0.0.9" "admin" "pw" camsC2).trace := by
  decide

/-- C2: when the primary mutation is recognized successful, the
post-mutation facts fetched at the old address list the new address, and
the new address becomes reachable within the ten-attempt polling window,
the engine returns the success outcome and the registry entry that
previously held the old address (the first such entry) now holds the new
address, via `updateFirstIp`. -/
theorem c2_confirmed_updates_registry (env : Env) (oldIp newIp username password : String)
    (cams : List Camera) (r : HttpResponse)
    (hresp : env.primaryResp = .ok r) (hst : r.status = 200)
    (hnf : hasFaultMarker r.body = false) (hos : hasOnvifSuccess r.body = true)
    (haddr : (get_current_network_config env.cfgResp2).addresses.contains newIp = true)
    (hver : ∃ j, j < 10 ∧ (env.verifyPort j &&
      (get_camera_info newIp username password (env.verifyInfo j)).isSome) = true) :
    (execute_ip_change env oldIp newIp username password cams).ret = .pyTrue ∧
    (execute_ip_change env oldIp newIp username password cams).cameras =
      updateFirstIp oldIp newIp cams ∧
    ∀ l1 c l2, cams = l1 ++ c :: l2 → (∀ d ∈ l1, d.ip ≠ oldIp) → c.ip = oldIp →
      (execute_ip_change env oldIp newIp username password cams).cameras =
        l1 ++ { c with ip := newIp } :: l2 := by
  have hmem : newIp ∈ (get_current_network_config env.cfgResp2).addresses := by
    simpa using haddr
  have hverify : verify_ip_change env newIp username password 10 = true := by
    unfold verify_ip_change
    apply (verifyLoop_iff _ 10 0).mpr
    obtain ⟨j, hj, hatt⟩ := hver
    exact ⟨j, hj, by simpa using hatt⟩
  have hne : (get_current_network_config env.cfgResp2).addresses.isEmpty = false := by
    cases hadd : (get_current_network_config env.cfgResp2).addresses with
    | nil => rw [hadd] at hmem; simp at hmem
    | cons a as => simp [List.isEmpty]
  unfold execute_ip_change engineOn200
  rw [hresp]
  simp only [hst, hnf, hos]
  norm_num
  simp only [hne, haddr, hverify]
  norm_num
  rw [if_pos (Or.inl ⟨List.ne_nil_of_mem hmem, hmem⟩)]
  refine ⟨rfl, rfl, ?_⟩
  intro l1 c l2 hdec h1 hc
  rw [hdec]
  exact updateFirstIp_first_match _ _ _ _ _ h1 hc

/-- Witness for C2 at the spec scenario: old `10.0.0.5`, new `10.0.0.9`,
both markers in the 200 response, post-settle facts listing `10.0.0.9`,
reachable on polling attempt 3 (index 2). -/
theorem c2_confirmed_witness :
    ((execute_ip_change envC2 "10.0.0.5" "10.0.0.9" "admin" "pw" camsC2).cameras.map
      Camera.ip) = ["10.0.0.7", "10.0.0.9", "10.0.0.5"] ∧
    ((execute_ip_change envC2 "10.0.0.5" "10.0.0.9" "admin" "pw" camsC2).ret = .pyTrue ∧
     (execute_ip_change envC2 "10.0.0.5" "10.0.0.9" "admin" "pw" camsC2).cameras =
       updateFirstIp "10.0.0.5" "10.0.0.9" camsC2 ∧
     ∀ l1 c l2, camsC2 = l1 ++ c :: l2 → (∀ d ∈ l1, d.ip ≠ "10.0.0.5") →
       c.ip = "10.0.0.5" →
       (execute_ip_change envC2 "10.0.0.5" "10.0.0.9" "admin" "pw" camsC2).cameras =
         l1 ++ { c with ip := "10.0.0.9" } :: l2) :=
  ⟨by decide,
   c2_confirmed_updates_registry envC2 "10.0.0.5" "10.0.0.9" "admin" "pw" camsC2 _
     rfl rfl (by decide) (by decide) (by decide) ⟨2, by norm_num, by decide⟩⟩

/-- C4 (code behavior at the claimed scenario): when the device is still
reachable at the old address, the post-settle facts do not list the new
address, and more than one interface identifier candidate was gathered, the
source evaluates the unbound variable `alt_token`, the resulting
`NameError` is caught by the blanket handler, and `execute_ip_change`
returns `False` without posting any alternate-format request and without
re-verifying. -/
theorem c4_alternate_attempt_never_sent (env : Env) (oldIp newIp username password : String)
    (cams : List Camera) (r : HttpResponse)
    (hresp : env.primaryResp = .ok r) (hst : r.status = 200)
    (hnf : hasFaultMarker r.body = false) (hos : hasOnvifSuccess r.body = true)
    (hnoc : (get_current_network_config env.cfgResp2).addresses.contains newIp = false)
    (hstill : env.stillAtOld = true)
    (htok : 1 < (engineAllTokens env).length) :
    (execute_ip_change env oldIp newIp username password cams).ret = .pyFalse ∧
    Event.altRequest ∉ (execute_ip_change env oldIp newIp username password cams).trace ∧
    Event.verifyCall ∉ (execute_ip_change env oldIp newIp username password cams).trace ∧
    Event.nameErrorCaught ∈ (execute_ip_change env oldIp newIp username password cams).trace := by
  have hnmem : newIp ∉ (get_current_network_config env.cfgResp2).addresses := by
    simpa using hnoc
  unfold execute_ip_change engineOn200
  rw [hresp]
  simp only [hst, hnf, hos]
  norm_num
  rw [if_neg ?hcond]
  case hcond =>
    rintro (⟨_, hm⟩ | hfalse)
    · exact hnmem hm
    · rw [hstill] at hfalse
      exact absurd hfalse (by decide)
  rw [if_pos ⟨hstill, htok⟩]
  refine ⟨rfl, ?_, ?_, ?_⟩
  · intro hmem
    rcases List.mem_append.mp hmem with hmem2 | hmem2
    · simp at hmem2
    · simp at hmem2
  · intro hmem
    rcases List.mem_append.mp hmem with hmem2 | hmem2
    · simp at hmem2
    · simp at hmem2
  · exact List.mem_append.mpr (Or.inr (by simp))

/-- Witness for C4 at the concrete two-candidate environment. -/
theorem c4_alternate_attempt_witness :
    1 < (engineAllTokens envC4).length ∧
    ((execute_ip_change envC4 "10.0.0.5" "10.0.0.9" "admin" "pw" camsC2).ret = .pyFalse ∧
     Event.altRequest ∉
       (execute_ip_change envC4 "10.0.0.5" "10.0.0.9" "admin" "pw" camsC2).trace ∧
     Event.verifyCall ∉
       (execute_ip_change envC4 "10.0.0.5" "10.0.0.9" "admin" "pw" camsC2).trace ∧
     Event.nameErrorCaught ∈
       (execute_ip_change envC4 "10.0.0.5" "10.0.0.9" "admin" "pw" camsC2).trace) :=
  ⟨by decide,
   c4_alternate_attempt_never_sent envC4 "10.0.0.5" "10.0.0.9" "admin" "pw" camsC2 _
     rfl rfl (by decide) (by decide) (by decide) rfl (by decide)⟩

/-- C6 (code behavior): transport failures of the primary request are
converted into the explicit failure return, but when the mutation is
recognized successful, the post-settle facts list the new address and
verification never succeeds, control falls off the end of
`execute_ip_change` and Python `None` is returned instead of a typed
outcome. -/
theorem c6_fall_through_returns_none :
    (execute_ip_change envC6 "10.0.0.5" "10.0.0.9" "admin" "pw" camsC2).ret = .pyNone ∧
    (execute_ip_change { envC6 with primaryResp := .timeout }
      "10.0.0.5" "10.0.0.9" "admin" "pw" camsC2).ret = .pyFalse ∧
    (execute_ip_change { envC6 with primaryResp := .connError }
      "10.0.0.5" "10.0.0.9" "admin" "pw" camsC2).ret = .pyFalse ∧
    (execute_ip_change { envC6 with primaryResp := .otherError }
      "10.0.0.5" "10.0.0.9" "admin" "pw" camsC2).ret = .pyFalse := by
  decide

/-- Witness for C7: scanning `192.168.1.0/28` with only `192.168.1.5`
answering yields exactly that device, and its address differs from both the
network and the broadcast address. -/
theorem c7_scan_witness :
    (⟨"192.168.1.5", "Camera-192.168.1.5", "X1", "Acme", true⟩ : Camera) ∈
      scan_network_for_cameras 3232235776 28 [80] (fun ip _ => ip == 3232235781)
        (fun _ => TransportResult.ok
          ⟨200, "<Manufacturer>Acme</Manufacturer><Model>X1</Model>"⟩)
        (fun _ => TransportResult.timeout) "" "" ∧
    ((⟨"192.168.1.5", "Camera-192.168.1.5", "X1", "Acme", true⟩ : Camera).ip ≠
       ipStr (networkAddress 3232235776 28) ∧
     (⟨"192.168.1.5", "Camera-192.168.1.5", "X1", "Acme", true⟩ : Camera).ip ≠
       ipStr (broadcastAddress 3232235776 28)) :=
  ⟨by decide,
   c7_scan_excludes_network_and_broadcast 3232235776 28 [80]
     (fun ip _ => ip == 3232235781)
     (fun _ => TransportResult.ok
       ⟨200, "<Manufacturer>Acme</Manufacturer><Model>X1</Model>"⟩)
     (fun _ => TransportResult.timeout) "" "" (by norm_num) (by norm_num) _ (by decide)⟩

/-- C8 (amended): every transport failure or non-200 response makes the
identity query return `None`, the config query return the empty fact
dictionary, and the interface-list query return its sentinel default (not
an empty list); none of them raises. -/
theorem c8_failures_yield_defaults (ip username password : String) (resp : TransportResult)
    (h : respFails resp = true) :
    get_camera_info ip username password resp = none ∧
    get_current_network_config resp = emptyNetworkConfig ∧
    get_network_interfaces resp = ["eth0"] := by
  cases resp with
  | ok r =>
    have hne : ¬r.status = 200 := by simpa [respFails] using h
    exact ⟨by simp [get_camera_info, hne], by simp [get_current_network_config, hne],
      by simp [get_network_interfaces, hne]⟩
  | timeout => exact ⟨rfl, rfl, rfl⟩
  | connError => exact ⟨rfl, rfl, rfl⟩
  | otherError => exact ⟨rfl, rfl, rfl⟩

/-- Witness for the amended C8 at a concrete transport timeout. -/
theorem c8_failures_witness :
    respFails TransportResult.timeout = true ∧
    (get_camera_info "10.0.0.5" "admin" "pw" TransportResult.timeout = none ∧
     get_current_network_config TransportResult.timeout = emptyNetworkConfig ∧
     get_network_interfaces TransportResult.timeout = ["eth0"]) :=
  ⟨rfl, c8_failures_yield_defaults "10.0.0.5" "admin" "pw" TransportResult.timeout rfl⟩

/-- Counterexample to C8 as stated: on a transport failure the
interface-list query does not yield an empty fact collection; it yields the
non-empty sentinel list. -/
theorem c8_counterexample_interfaces_not_empty :
    get_network_interfaces TransportResult.timeout = ["eth0"] ∧
    get_network_interfaces TransportResult.timeout ≠ [] := by
  decide

/-- C9: the interface-list query always returns a non-empty list; on any
failure, and whenever nothing is parsed from a 200 body, it returns the
single sentinel default identifier. -/
theorem c9_interfaces_never_empty (resp : TransportResult) :
    get_network_interfaces resp ≠ [] ∧
    (respFails resp = true → get_network_interfaces resp = ["eth0"]) ∧
    (∀ r, resp = .ok r → r.status = 200 → parseInterfaceTokens r.body = [] →
      get_network_interfaces resp = ["eth0"]) := by
  cases resp with
  | ok r =>
    by_cases h200 : r.status = 200
    · cases ht : parseInterfaceTokens r.body with
      | nil =>
        refine ⟨?_, ?_, ?_⟩
        · simp [get_network_interfaces, h200, ht]
        · intro hf
          simp [respFails, h200] at hf
        · intro r2 hr2 _ _
          simp [get_network_interfaces, h200, ht]
      | cons a as =>
        refine ⟨?_, ?_, ?_⟩
        · simp [get_network_interfaces, h200, ht]
        · intro hf
          simp [respFails, h200] at hf
        · intro r2 hr2 h2 hp
          injection hr2 with hr2
          subst hr2
          rw [hp] at ht
          exact absurd ht (by simp)
    · refine ⟨?_, ?_, ?_⟩
      · simp [get_network_interfaces, h200]
      · intro _
        simp [get_network_interfaces, h200]
      · intro r2 hr2 h2 _
        injection hr2 with hr2
        subst hr2
        exact absurd h2 h200
  | timeout => exact ⟨by decide, fun _ => rfl, fun r2 hr2 _ _ => by cases hr2⟩
  | connError => exact ⟨by decide, fun _ => rfl, fun r2 hr2 _ _ => by cases hr2⟩
  | otherError => exact ⟨by decide, fun _ => rfl, fun r2 hr2 _ _ => by cases hr2⟩

/-- Witness for C9 at a concrete transport failure. -/
theorem c9_interfaces_witness :
    get_network_interfaces TransportResult.connError ≠ [] ∧
    get_network_interfaces TransportResult.connError = ["eth0"] :=
  ⟨(c9_interfaces_never_empty TransportResult.connError).1,
   (c9_interfaces_never_empty TransportResult.connError).2.1 rfl⟩

/-- C10: whenever the engine returns the success outcome, the registry
afterwards is exactly `updateFirstIp`: if no entry held the old address the
registry is unchanged, and on the decomposition at the first entry holding
the old address only that entry's `ip` field is replaced (the `with`
update keeps name, model, manufacturer and reachability) while every other
entry is untouched. -/
theorem c10_success_mutates_only_first_match (env : Env)
    (oldIp newIp username password : String) (cams : List Camera)
    (h : (execute_ip_change env oldIp newIp username password cams).ret = .pyTrue) :
    (execute_ip_change env oldIp newIp username password cams).cameras =
      updateFirstIp oldIp newIp cams ∧
    ((∀ c ∈ cams, c.ip ≠ oldIp) →
      (execute_ip_change env oldIp newIp username password cams).cameras = cams) ∧
    ∀ l1 c l2, cams = l1 ++ c :: l2 → (∀ d ∈ l1, d.ip ≠ oldIp) → c.ip = oldIp →
      (execute_ip_change env oldIp newIp username password cams).cameras =
        l1 ++ { c with ip := newIp } :: l2 := by
  have hon : ∀ toks pre body,
      (engineOn200 env oldIp newIp username password cams toks pre body).ret = .pyTrue →
      (engineOn200 env oldIp newIp username password cams toks pre body).cameras =
        updateFirstIp oldIp newIp cams := by
    intro toks pre body hret
    unfold engineOn200 at hret ⊢
    simp only [] at hret ⊢
    split_ifs at hret ⊢
    rfl
  have hcams : (execute_ip_change env oldIp newIp username password cams).cameras =
      updateFirstIp oldIp newIp cams := by
    unfold execute_ip_change at h ⊢
    cases henv : env.primaryResp with
    | ok r =>
      rw [henv] at h
      simp only [] at h ⊢
      split_ifs at h ⊢
      all_goals apply hon _ _ _ h
    | timeout =>
      rw [henv] at h
      simp at h
    | connError =>
      rw [henv] at h
      simp at h
    | otherError =>
      rw [henv] at h
      simp at h
  refine ⟨hcams, ?_, ?_⟩
  · intro hno
    rw [hcams, updateFirstIp_no_match _ _ _ hno]
  · intro l1 c l2 hdec h1 hc
    rw [hcams, hdec]
    exact updateFirstIp_first_match _ _ _ _ _ h1 hc

/-- Witness for C10 at the confirmed scenario, with a registry carrying a
non-matching entry before the target and a duplicate of the old address
after it. -/
theorem c10_success_witness :
    (execute_ip_change envC2 "10.0.0.5" "10.0.0.9" "admin" "pw" camsC2).ret = .pyTrue ∧
    ((execute_ip_change envC2 "10.0.0.5" "10.0.0.9" "admin" "pw" camsC2).cameras =
       updateFirstIp "10.0.0.5" "10.0.0.9" camsC2 ∧
     ((∀ c ∈ camsC2, c.ip ≠ "10.0.0.5") →
       (execute_ip_change envC2 "10.0.0.5" "10.0.0.9" "admin" "pw" camsC2).cameras = camsC2) ∧
     ∀ l1 c l2, camsC2 = l1 ++ c :: l2 → (∀ d ∈ l1, d.ip ≠ "10.0.0.5") →
       c.ip = "10.0.0.5" →
       (execute_ip_change envC2 "10.0.0.5" "10.0.0.9" "admin" "pw" camsC2).cameras =
         l1 ++ { c with ip := "10.0.0.9" } :: l2) :=
  ⟨by decide,
   c10_success_mutates_only_first_match envC2 "10.0.0.5" "10.0.0.9" "admin" "pw" camsC2
     (by decide)⟩
